import Mathlib

/-!
Shallow embedding of the Shima LED monitor (Thurillo/shima-led-monitor).

The Python sources embedded here:
  * `src/led_detector.py`       — HSV LED classification and flashing detection
  * `src/rtsp_client.py`        — frame queue with drop-oldest semantics, reconnection loop
  * `src/notification_system.py`— provider fan-out with per-channel guards
  * `main.py`                   — status-change de-duplication and dispatch
  * `config/settings.py`        — LED region validation

Machine integers are modelled as `Nat`/`Int`; floating-point means and
confidences are modelled as exact rationals `ℚ` (the Python code only
compares them against exact decimal constants, so no rounding matters for
the properties proved here).  Side effects are made explicit: logging
becomes a `Bool`/counter in the result, the wall clock is dropped, and
network/SMTP outcomes are passed in as explicit environment parameters.
-/

namespace Shima

/-- `LEDStatus` enumeration from `led_detector.py`. -/
inductive LEDStatus
  | off
  | green
  | yellow
  | red
  | flashing_green
  | flashing_yellow
  | flashing_red
deriving DecidableEq, Repr

/-- `LEDRegion` dataclass from `led_detector.py` (pixel rectangle plus ids).
Coordinates are Python ints, hence `Int`. -/
structure LEDRegion where
  name : String
  x : Int
  y : Int
  width : Int
  height : Int
  machine_id : String
deriving DecidableEq, Repr

/-! ### Association lists

Python dicts keyed by strings (`status_history` in the detector,
`last_status` in `ShimaMonitor`) are modelled as association lists with
insert-or-overwrite update. -/

/-- Dict lookup: first binding of the key, if any. -/
def alistLookup (m : List (String × α)) (k : String) : Option α :=
  match m with
  | [] => none
  | (k', v) :: rest => if k' = k then some v else alistLookup rest k

/-- Dict update `m[k] = v`: overwrite the existing binding or append. -/
def alistSet (m : List (String × α)) (k : String) (v : α) : List (String × α) :=
  match m with
  | [] => [(k, v)]
  | (k', v') :: rest =>
      if k' = k then (k', v) :: rest else (k', v') :: alistSet rest k v

/-! ### `main.py` — `ShimaMonitor._process_detection` (lines 158-177)

The monitor keeps `self.last_status : dict[str, LEDStatus]`.  On each
detection it builds `region_key = f"{camera_id}_{region.name}"` and, when
the key is absent or the stored status differs, logs the change, calls
`_send_notification` (the dispatch), stores the new status and saves
history.  Otherwise it does nothing.  The returned `Bool` records whether a
dispatch happened. -/

/-- `region_key = f"{camera_id}_{detection.region.name}"`. -/
def region_key (camera_id : String) (region_name : String) : String :=
  camera_id ++ "_" ++ region_name

/-- One call of `_process_detection` for a given key, returning the updated
`last_status` table and whether a notification was dispatched. -/
def process_detection (last_status : List (String × LEDStatus)) (key : String)
    (current_status : LEDStatus) : List (String × LEDStatus) × Bool :=
  match alistLookup last_status key with
  | none => (alistSet last_status key current_status, true)
  | some prev =>
      if prev ≠ current_status then
        (alistSet last_status key current_status, true)
      else
        (last_status, false)

/-- Process a sequence of detections for one key, counting dispatches. -/
def process_seq (last_status : List (String × LEDStatus)) (key : String) :
    List LEDStatus → List (String × LEDStatus) × Nat
  | [] => (last_status, 0)
  | s :: rest =>
      let r := process_detection last_status key s
      let r' := process_seq r.1 key rest
      (r'.1, (if r.2 then 1 else 0) + r'.2)

/-- Number of adjacent differing pairs in a status sequence. -/
def countAdjDiffs : List LEDStatus → Nat
  | [] => 0
  | [_] => 0
  | a :: b :: rest => (if a ≠ b then 1 else 0) + countAdjDiffs (b :: rest)

/-! ### `src/rtsp_client.py` — bounded frame queue (lines 139-152)

`RTSPClient.frame_queue` is a `queue.Queue(maxsize=config.buffer_size)`;
the head of the model list is the oldest entry (the `get` side), the back
is the `put` side.  The capture loop pushes each new frame with
drop-oldest semantics: if the queue is full, `get_nowait()` discards the
oldest entry and increments `stats['frames_dropped']` before
`put_nowait(frame)`.  The inner `except queue.Empty: pass` is kept (it is
unreachable when `maxsize > 0`); the outer `except queue.Full` branch
cannot fire with the single capture thread and is not modelled. -/

/-- Queue contents plus the `frames_dropped` statistic. -/
structure FrameQueueState (α : Type) where
  q : List α
  frames_dropped : Nat
deriving DecidableEq, Repr

/-- `queue.Queue.full()`: true when `0 < maxsize ≤ qsize` (a `maxsize` of 0
means unbounded in Python). -/
def queueFull (maxsize : Nat) (q : List α) : Bool :=
  decide (0 < maxsize) && decide (maxsize ≤ q.length)

/-- The frame-push block of `RTSPClient._capture_frames`. -/
def enqueue_frame (maxsize : Nat) (st : FrameQueueState α) (frame : α) :
    FrameQueueState α :=
  if !(queueFull maxsize st.q) then
    { q := st.q ++ [frame], frames_dropped := st.frames_dropped }
  else
    match st.q with
    | [] => { q := [frame], frames_dropped := st.frames_dropped }
    | _ :: rest => { q := rest ++ [frame], frames_dropped := st.frames_dropped + 1 }

/-- Push a sequence of frames with no consumer running. -/
def push_frames (maxsize : Nat) (st : FrameQueueState α) :
    List α → FrameQueueState α
  | [] => st
  | f :: rest => push_frames maxsize (enqueue_frame maxsize st f) rest

/-! ### `src/rtsp_client.py` — reconnection (lines 103-114 and 167-191)

`_attempt_reconnection` makes up to `max_attempts = 5` tries; each try
increments `attempt`, sleeps `2 ** attempt` seconds (2, 4, 8, 16, 32) and
calls `_create_capture`.  The outcome of the `idx`-th `_create_capture`
call overall is supplied by the environment `env : Nat → Bool`.  The
capture loop `while self.is_running:` re-invokes the whole sequence
whenever the capture is absent; `is_running` is sampled per loop iteration
as `running : Nat → Bool` (a `stop()` call makes it false from then on).
Real sleeping is dropped; the list of backoff delays slept is returned. -/

/-- `max_attempts = 5` in `_attempt_reconnection`. -/
def max_attempts : Nat := 5

/-- The `while attempt < max_attempts and self.is_running` loop, with
`fuel = max_attempts - attempt` remaining tries.  Returns (success, next
`_create_capture` index, delays slept). -/
def attempt_loop (env : Nat → Bool) (running : Bool) :
    Nat → Nat → Nat → Bool × Nat × List Nat
  | 0, _, idx => (false, idx, [])
  | fuel + 1, attempt, idx =>
      if running then
        let a := attempt + 1
        let delay := 2 ^ a
        if env idx then (true, idx + 1, [delay])
        else
          let r := attempt_loop env running fuel a (idx + 1)
          (r.1, r.2.1, delay :: r.2.2)
      else (false, idx, [])

/-- `RTSPClient._attempt_reconnection`, starting at `attempt = 0`. -/
def attempt_reconnection (env : Nat → Bool) (running : Bool) (idx : Nat) :
    Bool × Nat × List Nat :=
  attempt_loop env running max_attempts 0 idx

/-- State of the capture loop while the capture is absent: still cycling
through reconnection (with the next `_create_capture` index), connected, or
exited after the `while self.is_running` check failed at some iteration. -/
inductive CaptureState
  | looping (idx : Nat)
  | connected (idx : Nat)
  | exited (iter : Nat)
deriving DecidableEq, Repr

/-- One iteration of `while self.is_running:` in the disconnected state
(`self.cap is None`): check the flag, run `_attempt_reconnection`,
`time.sleep(1)`, `continue`.  `connected`/`exited` are absorbing. -/
def capture_step (running : Nat → Bool) (env : Nat → Bool) (n : Nat) :
    CaptureState → CaptureState
  | .looping idx =>
      if running n then
        let r := attempt_reconnection env true idx
        if r.1 then .connected r.2.1 else .looping r.2.1
      else .exited n
  | s => s

/-- The capture loop after `n` iterations, starting disconnected. -/
def capture_run (running : Nat → Bool) (env : Nat → Bool) : Nat → CaptureState
  | 0 => .looping 0
  | n + 1 => capture_step running env n (capture_run running env n)

/-! ### `src/notification_system.py` — providers and fan-out

Provider configurations keep only the fields the control flow reads.
Network and SMTP outcomes are explicit environment parameters: the SMTP
block of `EmailProvider.send` either delivers or raises (the exception is
caught inside `send`, which then returns `False`); each webhook URL /
Telegram chat id either answers HTTP 200 (`True`) or not (`False`, which
also covers a caught per-URL exception).  Every provider `send` returns the
reported `Bool` together with the number of delivery attempts actually
made, so that "returns true without attempting delivery" is expressible.
`Provider.raising` models a provider whose `send` call itself raises; the
manager's `try`/`except` in `send_notification` catches it. -/

/-- `NotificationConfig`: `priority_filter = None` means all priorities. -/
structure NotificationConfig where
  enabled : Bool
  priority_filter : Option (List String)

/-- `EmailConfig` (fields beyond the guards are irrelevant to control flow
and omitted: smtp server, credentials, recipients, tls). -/
structure EmailConfig extends NotificationConfig

/-- `WebhookConfig`: the guard also reads `urls` (`None` modelled as `[]`,
both falsy in Python). -/
structure WebhookConfig extends NotificationConfig where
  urls : List String

/-- `TelegramConfig`: the guard also reads `bot_token` and `chat_ids`. -/
structure TelegramConfig extends NotificationConfig where
  bot_token : String
  chat_ids : List String

/-- The test `self.config.priority_filter and priority not in
self.config.priority_filter` (an empty or `None` filter is falsy, so it
excludes nothing). -/
def filterExcludes (pf : Option (List String)) (priority : String) : Bool :=
  match pf with
  | none => false
  | some l => if l.isEmpty then false else !(l.contains priority)

/-- Outcome of the SMTP block in `EmailProvider.send`: delivery succeeds,
or some step raises (caught by the provider, which returns `False`). -/
inductive SmtpOutcome
  | delivered
  | raised

/-- `EmailProvider.send` (lines 56-97): disabled or filtered-out returns
`True` with no delivery attempt; otherwise one SMTP attempt is made. -/
def emailProviderSend (cfg : EmailConfig) (priority : String)
    (smtp : SmtpOutcome) : Bool × Nat :=
  if !cfg.enabled then (true, 0)
  else if filterExcludes cfg.priority_filter priority then (true, 0)
  else
    match smtp with
    | .delivered => (true, 1)
    | .raised => (false, 1)

/-- `WebhookProvider.send` (lines 156-205): disabled or no URLs or
filtered-out returns `True` with no attempts; otherwise every URL is posted
to and success means at least one HTTP 200. -/
def webhookProviderSend (cfg : WebhookConfig) (priority : String)
    (net : String → Bool) : Bool × Nat :=
  if !cfg.enabled || cfg.urls.isEmpty then (true, 0)
  else if filterExcludes cfg.priority_filter priority then (true, 0)
  else ((cfg.urls.countP fun u => net u) > 0, cfg.urls.length)

/-- `TelegramProvider.send` (lines 215-269): disabled or empty token or no
chat ids or filtered-out returns `True` with no attempts; otherwise every
chat id is posted to and success means at least one HTTP 200. -/
def telegramProviderSend (cfg : TelegramConfig) (priority : String)
    (net : String → Bool) : Bool × Nat :=
  if !cfg.enabled || cfg.bot_token.isEmpty || cfg.chat_ids.isEmpty then (true, 0)
  else if filterExcludes cfg.priority_filter priority then (true, 0)
  else ((cfg.chat_ids.countP fun c => net c) > 0, cfg.chat_ids.length)

/-- A registered provider together with its delivery environment. -/
inductive Provider
  | email (cfg : EmailConfig) (smtp : SmtpOutcome)
  | webhook (cfg : WebhookConfig) (net : String → Bool)
  | telegram (cfg : TelegramConfig) (net : String → Bool)
  | raising

/-- `provider.send(...)` as called by the manager; `.error` models an
escaped exception, caught by the manager's `try`/`except`. -/
def providerSend (p : Provider) (priority : String) : Except Unit (Bool × Nat) :=
  match p with
  | .email cfg smtp => .ok (emailProviderSend cfg priority smtp)
  | .webhook cfg net => .ok (webhookProviderSend cfg priority net)
  | .telegram cfg net => .ok (telegramProviderSend cfg priority net)
  | .raising => .error ()

/-- Whether `provider.send(...)` returns `True` (an escaped exception
counts as no success, as in the manager's `except` branch). -/
def reportsSuccess (p : Provider) (priority : String) : Bool :=
  match providerSend p priority with
  | .ok (true, _) => true
  | _ => false

/-- Delivery attempts made by `provider.send(...)`. -/
def sendAttempts (p : Provider) (priority : String) : Nat :=
  match providerSend p priority with
  | .ok (_, a) => a
  | .error _ => 0

/-- Result of `NotificationManager.send_notification`, instrumented with
the success count, the number of providers whose `send` was invoked, and
the total delivery attempts. -/
structure SendOutcome where
  success : Bool
  success_count : Nat
  providers_invoked : Nat
  delivery_attempts : Nat
deriving DecidableEq, Repr

/-- `NotificationManager.send_notification` (lines 317-339): empty provider
list returns `False` immediately; otherwise every provider is tried in
turn (exceptions caught), and the overall result is `success_count > 0`. -/
def send_notification (providers : List Provider) (priority : String) :
    SendOutcome :=
  if providers.isEmpty then
    { success := false, success_count := 0, providers_invoked := 0,
      delivery_attempts := 0 }
  else
    let success_count := providers.countP fun p => reportsSuccess p priority
    { success := decide (success_count > 0),
      success_count := success_count,
      providers_invoked := providers.length,
      delivery_attempts := (providers.map fun p => sendAttempts p priority).sum }

/-- A provider that reports failure from `send` (an enabled, unfiltered
email provider whose SMTP block raises, caught inside `send`). -/
def always_fail_provider : Provider :=
  .email { enabled := true, priority_filter := none } .raised

/-- The guard tested by C10: the provider's config is disabled, or its
priority filter excludes the event's priority. -/
def disabledOrFiltered (p : Provider) (priority : String) : Bool :=
  match p with
  | .email cfg _ => !cfg.enabled || filterExcludes cfg.priority_filter priority
  | .webhook cfg _ => !cfg.enabled || filterExcludes cfg.priority_filter priority
  | .telegram cfg _ => !cfg.enabled || filterExcludes cfg.priority_filter priority
  | .raising => false

/-! ### `config/settings.py` — `validate_led_region_config` (lines 211-223)
and `main.py` — `ShimaMonitor.load_configuration` (lines 77-96)

A raw YAML region entry is a dict; each field is `Option`-valued to model
missing keys.  Present numeric fields are Python ints, hence `Int` (the
`isinstance(..., int)` test cannot fail in this typed model and is noted as
always true).  `validate_led_region_config` raises `ValueError` (modelled
as `.error msg`) for a missing field or a negative coordinate value, and
otherwise returns `True`.  `load_configuration` builds `LEDRegion`s
directly from the dict fields without calling the validator; a missing key
raises `KeyError`, caught by its `except`, which logs and `sys.exit(1)`
(modelled as `.error ()`). -/

/-- One entry of the `led_regions` YAML list. -/
structure RegionConfigRaw where
  name : Option String
  x : Option Int
  y : Option Int
  width : Option Int
  height : Option Int
  machine_id : Option String
deriving DecidableEq, Repr

/-- `validate_led_region_config`: required-field check in source order,
then the `< 0` check over x, y, width, height in source order. -/
def validate_led_region_config (cfg : RegionConfigRaw) : Except String Bool :=
  if cfg.name.isNone then
    .error "Missing required field in LED region config: name"
  else if cfg.x.isNone then
    .error "Missing required field in LED region config: x"
  else if cfg.y.isNone then
    .error "Missing required field in LED region config: y"
  else if cfg.width.isNone then
    .error "Missing required field in LED region config: width"
  else if cfg.height.isNone then
    .error "Missing required field in LED region config: height"
  else if cfg.machine_id.isNone then
    .error "Missing required field in LED region config: machine_id"
  else if cfg.x.getD 0 < 0 then
    .error "Invalid x value in LED region config"
  else if cfg.y.getD 0 < 0 then
    .error "Invalid y value in LED region config"
  else if cfg.width.getD 0 < 0 then
    .error "Invalid width value in LED region config"
  else if cfg.height.getD 0 < 0 then
    .error "Invalid height value in LED region config"
  else
    .ok true

/-- The `LEDRegion(...)` construction inside `load_configuration`: plain
dict access, `none` on a missing key (`KeyError`). -/
def buildRegion (cfg : RegionConfigRaw) : Option LEDRegion :=
  match cfg.name, cfg.x, cfg.y, cfg.width, cfg.height, cfg.machine_id with
  | some n, some x, some y, some w, some h, some m =>
      some { name := n, x := x, y := y, width := w, height := h,
             machine_id := m }
  | _, _, _, _, _, _ => none

/-- The region-loading loop of `load_configuration` for one camera: every
entry is turned into an `LEDRegion` and registered, with no validation
call; any `KeyError` aborts the whole load (`sys.exit(1)`). -/
def load_led_regions (cfgs : List RegionConfigRaw) :
    Except Unit (List LEDRegion) :=
  match cfgs.mapM buildRegion with
  | some regions => .ok regions
  | none => .error ()

/-- All six required fields are present. -/
def allFieldsPresent (cfg : RegionConfigRaw) : Bool :=
  cfg.name.isSome && cfg.x.isSome && cfg.y.isSome && cfg.width.isSome
    && cfg.height.isSome && cfg.machine_id.isSome

/-! ### `src/led_detector.py` — data model and pixel operations

Frames are matrices (lists of rows) of 8-bit pixel triples.  `np.mean`
over the V channel is an exact rational.  Binary masks hold 0 or 255 as in
OpenCV.  `cv2.erode`/`cv2.dilate` take the min/max over the in-bounds part
of the kernel window, which matches OpenCV's default border handling for
morphology (the constant border value is chosen so that it never affects
the result). -/

/-- An HSV pixel (OpenCV 8-bit: hue 0-179, saturation and value 0-255). -/
structure HSVPixel where
  hue : Nat
  sat : Nat
  val : Nat
deriving DecidableEq, Repr

/-- A BGR pixel, channels 0-255. -/
structure BGRPixel where
  b : Nat
  g : Nat
  r : Nat
deriving DecidableEq, Repr

/-- A matrix as a list of rows. -/
abbrev Mat (α : Type) := List (List α)

/-- Number of rows (`shape[0]`). -/
def matRows (m : Mat α) : Nat := m.length

/-- Number of columns of the first row (`shape[1]`; inputs are
rectangular). -/
def matCols (m : Mat α) : Nat := (m.headD []).length

/-- Total number of entries; 0 exactly when `ndarray.size` is 0. -/
def matSize (m : Mat α) : Nat := (m.map List.length).sum

/-- Entry at row `i`, column `j` (0 when out of bounds). -/
def matGet (m : Mat Nat) (i j : Nat) : Nat := (m.getD i []).getD j 0

/-- `np.mean(roi_hsv[:, :, 2])`: mean of the V channel as an exact
rational (the source never calls this on an empty ROI). -/
def meanBrightness (roi : Mat HSVPixel) : ℚ :=
  let total : Nat := (roi.map fun row => (row.map HSVPixel.val).sum).sum
  (total : ℚ) / (matSize roi : ℚ)

/-- An HSV threshold box (`lower`/`upper` arrays). -/
structure HSVRange where
  lowH : Nat
  lowS : Nat
  lowV : Nat
  highH : Nat
  highS : Nat
  highV : Nat

/-- `color_ranges[GREEN]`: lower [35, 40, 40], upper [90, 255, 255]. -/
def color_range_green : HSVRange := ⟨35, 40, 40, 90, 255, 255⟩

/-- `color_ranges[YELLOW]`: lower [15, 70, 70], upper [40, 255, 255]. -/
def color_range_yellow : HSVRange := ⟨15, 70, 70, 40, 255, 255⟩

/-- `color_ranges[RED]`: lower [0, 80, 60], upper [15, 255, 255]. -/
def color_range_red_1 : HSVRange := ⟨0, 80, 60, 15, 255, 255⟩

/-- `red_range_2` (hue wrap): lower [165, 80, 60], upper [180, 255, 255]. -/
def red_range_2 : HSVRange := ⟨165, 80, 60, 180, 255, 255⟩

/-- `brightness_threshold = 25` set in `LEDDetector.__init__` (the comment
there records that it was previously, implicitly, 30). -/
def brightness_threshold : ℚ := 25

/-- `history_length = 10` frames kept for flashing detection. -/
def history_length : Nat := 10

/-- `flashing_threshold = 3` minimum changes to consider flashing. -/
def flashing_threshold : Nat := 3

/-- `cv2.inRange` on one pixel: 255 when inside the box, else 0. -/
def inRangePix (rg : HSVRange) (p : HSVPixel) : Nat :=
  if rg.lowH ≤ p.hue ∧ p.hue ≤ rg.highH ∧ rg.lowS ≤ p.sat ∧ p.sat ≤ rg.highS
      ∧ rg.lowV ≤ p.val ∧ p.val ≤ rg.highV then 255 else 0

/-- `cv2.inRange(roi_hsv, lower, upper)`. -/
def inRange (m : Mat HSVPixel) (rg : HSVRange) : Mat Nat :=
  m.map (List.map (inRangePix rg))

/-- `cv2.bitwise_or` of two same-shape 0/255 masks. -/
def bitwise_or (a c : Mat Nat) : Mat Nat :=
  List.zipWith (fun ra rc => List.zipWith max ra rc) a c

/-- Window offsets of a (2k+1)×(2k+1) square kernel. -/
def kernelOffsets (k : Nat) : List Int :=
  (List.range (2 * k + 1)).map fun d => (d : Int) - (k : Int)

/-- Values of the in-bounds part of the kernel window centred at (i, j). -/
def windowVals (m : Mat Nat) (k : Nat) (i j : Nat) : List Nat :=
  (kernelOffsets k).flatMap fun di =>
    (kernelOffsets k).filterMap fun dj =>
      let i' := (i : Int) + di
      let j' := (j : Int) + dj
      if 0 ≤ i' ∧ i' < (matRows m : Int) ∧ 0 ≤ j' ∧ j' < (matCols m : Int) then
        some (matGet m i'.toNat j'.toNat)
      else none

/-- `cv2.erode` with an all-ones (2k+1)×(2k+1) kernel. -/
def erode (k : Nat) (m : Mat Nat) : Mat Nat :=
  (List.range (matRows m)).map fun i =>
    (List.range (matCols m)).map fun j => (windowVals m k i j).foldl min 255

/-- `cv2.dilate` with an all-ones (2k+1)×(2k+1) kernel. -/
def dilate (k : Nat) (m : Mat Nat) : Mat Nat :=
  (List.range (matRows m)).map fun i =>
    (List.range (matCols m)).map fun j => (windowVals m k i j).foldl max 0

/-- The mask-cleanup loop of `detect_led_color`: `MORPH_OPEN` with the 3×3
`kernel_small` then `MORPH_CLOSE` with the 5×5 `kernel_medium`. -/
def morphCleanup (m : Mat Nat) : Mat Nat :=
  erode 2 (dilate 2 (dilate 1 (erode 1 m)))

/-- `cv2.countNonZero`. -/
def countNonZero (m : Mat Nat) : Nat :=
  (m.map fun row => row.countP fun x => decide (x ≠ 0)).sum

/-- `LEDDetector.detect_led_color` (lines 96-150): below the brightness
threshold return OFF with confidence 1.0 immediately; otherwise build and
clean the three colour masks, compute per-colour confidences, pick the
best (Python `max` over the dict's insertion order GREEN, YELLOW, RED
keeps the first key on ties) and fall back to OFF with confidence 1.0 when
the best confidence is below 0.1. -/
def detect_led_color (roi_hsv : Mat HSVPixel) : LEDStatus × ℚ × ℚ :=
  let brightness := meanBrightness roi_hsv
  if brightness < brightness_threshold then (LEDStatus.off, 1, brightness)
  else
    let maskGreen := morphCleanup (inRange roi_hsv color_range_green)
    let maskYellow := morphCleanup (inRange roi_hsv color_range_yellow)
    let maskRed := morphCleanup
      (bitwise_or (inRange roi_hsv color_range_red_1)
        (inRange roi_hsv red_range_2))
    let total_pixels : ℚ := ((matRows roi_hsv * matCols roi_hsv : Nat) : ℚ)
    let confGreen : ℚ := (countNonZero maskGreen : ℚ) / total_pixels
    let confYellow : ℚ := (countNonZero maskYellow : ℚ) / total_pixels
    let confRed : ℚ := (countNonZero maskRed : ℚ) / total_pixels
    let best1 := (LEDStatus.green, confGreen)
    let best2 := if confYellow > best1.2 then (LEDStatus.yellow, confYellow)
      else best1
    let best := if confRed > best2.2 then (LEDStatus.red, confRed) else best2
    if best.2 < (1 : ℚ) / 10 then (LEDStatus.off, 1, brightness)
    else (best.1, best.2, brightness)

/-- The detector's `status_history` dict. -/
abbrev HistMap := List (String × List LEDStatus)

/-- `LEDDetector.update_status_history` (lines 152-163): append the status
and pop the front once if the window exceeds `history_length`. -/
def update_status_history (hist : HistMap) (region_name : String)
    (status : LEDStatus) : HistMap :=
  let cur := (alistLookup hist region_name).getD []
  let appended := cur ++ [status]
  let trimmed := if appended.length > history_length then appended.drop 1
    else appended
  alistSet hist region_name trimmed

/-- The scan of `detect_flashing` over `history[1:]`: count adjacent
changes and remember the most recent GREEN/YELLOW/RED entered at a
change. -/
def scanChangesGo (prev : LEDStatus) (changes : Nat)
    (base : Option LEDStatus) : List LEDStatus → Nat × Option LEDStatus
  | [] => (changes, base)
  | s :: rest =>
      if s ≠ prev then
        scanChangesGo s (changes + 1)
          (if s = LEDStatus.green ∨ s = LEDStatus.yellow ∨ s = LEDStatus.red
           then some s else base) rest
      else scanChangesGo s changes base rest

/-- Adjacent-change count and base colour of a history window. -/
def scanChanges : List LEDStatus → Nat × Option LEDStatus
  | [] => (0, none)
  | s :: rest => scanChangesGo s 0 none rest

/-- `LEDDetector.detect_flashing` (lines 165-194): unknown region or a
window shorter than `history_length` returns the current status; a full
window with at least `flashing_threshold` changes and a base colour maps
the base colour to its flashing variant. -/
def detect_flashing (hist : HistMap) (region_name : String)
    (current_status : LEDStatus) : LEDStatus :=
  match alistLookup hist region_name with
  | none => current_status
  | some history =>
      if history.length < history_length then current_status
      else
        let r := scanChanges history
        if r.1 ≥ flashing_threshold then
          match r.2 with
          | some LEDStatus.green => LEDStatus.flashing_green
          | some LEDStatus.yellow => LEDStatus.flashing_yellow
          | some LEDStatus.red => LEDStatus.flashing_red
          | _ => current_status
        else current_status

/-! ### Cropping and preprocessing

`frame[y:y+h, x:x+w]` uses Python slice semantics: negative endpoints wrap
by the length, then both endpoints clamp to [0, len].
`preprocess_frame` is `cv2.cvtColor(frame, COLOR_BGR2HSV)` followed by
`cv2.GaussianBlur(hsv, (5, 5), 0)`.  The colour conversion uses the
standard 8-bit formulas and the blur the standard 5-tap binomial kernel
[1,4,6,4,1]/16 with reflect-101 borders; plain integer division stands in
for OpenCV's fixed-point rounding.  No theorem below depends on the pixel
values these two produce, only on where they are (not) called. -/

/-- Normalize one slice endpoint against length `n`. -/
def pyNormIdx (n : Nat) (i : Int) : Nat :=
  let j := if i < 0 then i + (n : Int) else i
  if j < 0 then 0 else if j > (n : Int) then n else j.toNat

/-- Python `l[a:b]`. -/
def pySlice (l : List α) (a c : Int) : List α :=
  (l.take (pyNormIdx l.length c)).drop (pyNormIdx l.length a)

/-- `roi = frame[region.y : region.y + region.height,
region.x : region.x + region.width]`. -/
def cropRegion (frame : Mat BGRPixel) (region : LEDRegion) : Mat BGRPixel :=
  (pySlice frame region.y (region.y + region.height)).map fun row =>
    pySlice row region.x (region.x + region.width)

/-- 8-bit BGR to HSV conversion (hue halved into 0-179). -/
def bgr2hsvPixel (p : BGRPixel) : HSVPixel :=
  let v := max p.r (max p.g p.b)
  let mn := min p.r (min p.g p.b)
  let delta := v - mn
  let s := if v = 0 then 0 else (255 * delta + v / 2) / v
  let hdeg : Int :=
    if delta = 0 then 0
    else if v = p.r then (60 * ((p.g : Int) - (p.b : Int))) / (delta : Int)
    else if v = p.g then 120 + (60 * ((p.b : Int) - (p.r : Int))) / (delta : Int)
    else 240 + (60 * ((p.r : Int) - (p.g : Int))) / (delta : Int)
  let hpos := if hdeg < 0 then hdeg + 360 else hdeg
  ⟨(hpos / 2).toNat, s, v⟩

/-- Reflect-101 border index mapping. -/
def reflect101 (n : Nat) (i : Int) : Nat :=
  if n ≤ 1 then 0
  else
    let r := if i < 0 then -i
      else if i ≥ (n : Int) then 2 * ((n : Int) - 1) - i else i
    if r < 0 then 0 else if r ≥ (n : Int) then n - 1 else r.toNat

/-- The 5-tap binomial kernel, offsets paired with weights. -/
def blurWeights : List (Int × Nat) := [(-2, 1), (-1, 4), (0, 6), (1, 4), (2, 1)]

/-- Horizontal pass of the 5×5 Gaussian blur on one channel. -/
def blurHoriz (m : Mat Nat) : Mat Nat :=
  m.map fun row =>
    (List.range row.length).map fun j =>
      ((blurWeights.map fun w =>
          w.2 * row.getD (reflect101 row.length ((j : Int) + w.1)) 0).sum + 8) / 16

/-- Vertical pass of the 5×5 Gaussian blur on one channel. -/
def blurVert (m : Mat Nat) : Mat Nat :=
  (List.range (matRows m)).map fun i =>
    (List.range (matCols m)).map fun j =>
      ((blurWeights.map fun w =>
          w.2 * matGet m (reflect101 (matRows m) ((i : Int) + w.1)) j).sum + 8) / 16

/-- `cv2.GaussianBlur(hsv, (5, 5), 0)` applied per channel. -/
def gaussianBlur5 (m : Mat HSVPixel) : Mat HSVPixel :=
  let bh := blurVert (blurHoriz (m.map (List.map HSVPixel.hue)))
  let bs := blurVert (blurHoriz (m.map (List.map HSVPixel.sat)))
  let bv := blurVert (blurHoriz (m.map (List.map HSVPixel.val)))
  (List.range (matRows m)).map fun i =>
    (List.range (matCols m)).map fun j =>
      ⟨matGet bh i j, matGet bs i j, matGet bv i j⟩

/-- `LEDDetector.preprocess_frame` (lines 87-94). -/
def preprocess_frame (frame : Mat BGRPixel) : Mat HSVPixel :=
  gaussianBlur5 (frame.map (List.map bgr2hsvPixel))

/-- `LEDDetection` result (the wall-clock `timestamp` field is dropped). -/
structure LEDDetection where
  region : LEDRegion
  status : LEDStatus
  confidence : ℚ
  brightness : ℚ
deriving DecidableEq, Repr

/-- Result of `detect_led_in_region` with the detector state made
explicit: the detection, the updated `status_history`, and whether the
empty-ROI warning was logged. -/
structure DetectResult where
  detection : LEDDetection
  status_history : HistMap
  warned_empty : Bool
deriving DecidableEq, Repr

/-- `LEDDetector.detect_led_in_region` (lines 196-223): crop; on an empty
ROI log a warning and return OFF with confidence 0 and brightness 0
without touching the history; otherwise preprocess, classify, push the raw
status into the history and apply flashing detection.  The function is
total: no geometry makes it raise. -/
def detect_led_in_region (frame : Mat BGRPixel) (region : LEDRegion)
    (status_history : HistMap) : DetectResult :=
  let roi := cropRegion frame region
  if matSize roi = 0 then
    { detection := { region := region, status := LEDStatus.off,
                     confidence := 0, brightness := 0 },
      status_history := status_history, warned_empty := true }
  else
    let roi_hsv := preprocess_frame roi
    let r := detect_led_color roi_hsv
    let h2 := update_status_history status_history region.name r.1
    let final_status := detect_flashing h2 region.name r.1
    { detection := { region := region, status := final_status,
                     confidence := r.2.1, brightness := r.2.2 },
      status_history := h2, warned_empty := false }

/-- The per-frame classification step of `detect_led_in_region` at the
temporal level (lines 214-215): push the raw status, then ask the flashing
detector for the final status. -/
def classifyStep (hist : HistMap) (name : String) (status : LEDStatus) :
    LEDStatus × HistMap :=
  let h2 := update_status_history hist name status
  (detect_flashing h2 name status, h2)

/-- Feed a status sequence through `classifyStep`, returning the last
reported status and the final history. -/
def classifySeq (hist : HistMap) (name : String) :
    List LEDStatus → LEDStatus × HistMap
  | [] => (LEDStatus.off, hist)
  | [s] => classifyStep hist name s
  | s :: rest => classifySeq (classifyStep hist name s).2 name rest

/-- Alternating RED, OFF, RED, OFF, ... of length n. -/
def altRedOff (n : Nat) : List LEDStatus :=
  (List.range n).map fun i => if i % 2 = 0 then LEDStatus.red else LEDStatus.off

/-- A 5×5 HSV crop whose central 3×3 block is a saturated red of value 70
and whose border is black: its mean brightness is 25.2, between the
detector's threshold 25 and the 30 the spec names. -/
def dimRedRoi : Mat HSVPixel :=
  (List.range 5).map fun i =>
    (List.range 5).map fun j =>
      if 1 ≤ i ∧ i ≤ 3 ∧ 1 ≤ j ∧ j ≤ 3 then ⟨5, 200, 70⟩ else ⟨0, 0, 0⟩

/-! ## Theorems -/

/-- Updating a dict and reading the same key back yields the new value. -/
theorem alistLookup_alistSet (m : List (String × α)) (k : String) (v : α) :
    alistLookup (alistSet m k v) k = some v := by
  induction m with
  | nil => simp [alistSet, alistLookup]
  | cons hd tl ih =>
      obtain ⟨k', v'⟩ := hd
      by_cases h : k' = k
      · simp [alistSet, alistLookup, h]
      · simp [alistSet, alistLookup, h, ih]

/-- Updating a dict leaves every other key's binding unchanged. -/
theorem alistLookup_alistSet_ne (m : List (String × α)) (k k' : String) (v : α)
    (h : k ≠ k') : alistLookup (alistSet m k v) k' = alistLookup m k' := by
  induction m with
  | nil => simp [alistSet, alistLookup, h]
  | cons hd tl ih =>
      obtain ⟨k0, v0⟩ := hd
      by_cases h0 : k0 = k
      · subst h0
        simp [alistSet, alistLookup, h]
      · simp [alistSet, alistLookup, h0, ih]

/-- After the key holds `prev`, the dispatch count over a further sequence is
exactly the number of adjacent differing pairs of `prev :: ss`. -/
theorem process_seq_count_of_some (ss : List LEDStatus)
    (m : List (String × LEDStatus)) (k : String) (prev : LEDStatus)
    (h : alistLookup m k = some prev) :
    (process_seq m k ss).2 = countAdjDiffs (prev :: ss) := by
  induction ss generalizing m prev with
  | nil => simp [process_seq, countAdjDiffs]
  | cons s rest ih =>
      by_cases hps : prev = s
      · subst hps
        have : process_detection m k prev = (m, false) := by
          simp [process_detection, h]
        simp [process_seq, this, countAdjDiffs, ih m prev h]
      · have : process_detection m k s = (alistSet m k s, true) := by
          simp [process_detection, h, hps]
        simp [process_seq, this, countAdjDiffs, hps,
          ih (alistSet m k s) s (alistLookup_alistSet m k s), Nat.add_comm]

/-- C2: for one (camera, region) key starting with no stored status, the
sequence GREEN, GREEN, RED, RED, GREEN dispatches exactly 3 notifications;
a detection equal to the stored status dispatches nothing and leaves the
table unchanged; and in general the dispatch count over a nonempty sequence
from a fresh key equals the number of adjacent differing pairs plus one. -/
theorem process_detection_dispatch_counts :
    (process_seq [] (region_key "cam1" "status_led")
        [LEDStatus.green, LEDStatus.green, LEDStatus.red,
         LEDStatus.red, LEDStatus.green]).2 = 3
    ∧ (∀ (m : List (String × LEDStatus)) (k : String) (s : LEDStatus),
        alistLookup m k = some s → process_detection m k s = (m, false))
    ∧ (∀ (m : List (String × LEDStatus)) (k : String) (ss : List LEDStatus),
        alistLookup m k = none → ss ≠ [] →
        (process_seq m k ss).2 = countAdjDiffs ss + 1) := by
  refine ⟨by decide, ?_, ?_⟩
  · intro m k s h
    simp [process_detection, h]
  · intro m k ss h hne
    match ss with
    | [] => exact absurd rfl hne
    | s :: rest =>
        have hd : process_detection m k s = (alistSet m k s, true) := by
          simp [process_detection, h]
        simp [process_seq, hd,
          process_seq_count_of_some rest (alistSet m k s) k s
            (alistLookup_alistSet m k s), Nat.add_comm]

/-- Witness for `process_detection_dispatch_counts` at concrete inputs. -/
theorem process_detection_dispatch_counts_witness :
    process_detection [("k", LEDStatus.red)] "k" LEDStatus.red
        = ([("k", LEDStatus.red)], false)
    ∧ (process_seq [] "k" [LEDStatus.red, LEDStatus.green]).2
        = countAdjDiffs [LEDStatus.red, LEDStatus.green] + 1 :=
  ⟨process_detection_dispatch_counts.2.1 _ _ _ (by decide),
   process_detection_dispatch_counts.2.2 _ _ _ (by decide) (by decide)⟩

/-- C5: pushing frames 1..5 into an empty queue of capacity 2 with no
consumer leaves exactly the two most recent frames and a drop counter of 3;
and in general, a push into a full queue discards the single oldest entry
and counts it as dropped before inserting the new frame. -/
theorem enqueue_frame_drop_oldest :
    push_frames 2 ⟨[], 0⟩ [1, 2, 3, 4, 5]
      = ({ q := [4, 5], frames_dropped := 3 } : FrameQueueState Nat)
    ∧ (∀ (α : Type) (maxsize : Nat) (st : FrameQueueState α) (f : α),
        0 < maxsize → maxsize ≤ st.q.length →
        enqueue_frame maxsize st f
          = { q := st.q.drop 1 ++ [f], frames_dropped := st.frames_dropped + 1 }) := by
  refine ⟨by decide, ?_⟩
  intro α maxsize st f hpos hlen
  obtain ⟨q, d⟩ := st
  cases q with
  | nil =>
      simp at hlen
      omega
  | cons x rest =>
      have hfull : queueFull maxsize (x :: rest) = true := by
        simp [queueFull]
        exact ⟨hpos, by simpa using hlen⟩
      simp [enqueue_frame, hfull]

/-- Witness for `enqueue_frame_drop_oldest` at a concrete full queue. -/
theorem enqueue_frame_drop_oldest_witness :
    enqueue_frame 2 ({ q := [7, 8], frames_dropped := 1 } : FrameQueueState Nat) 9
      = { q := [8, 9], frames_dropped := 2 } :=
  enqueue_frame_drop_oldest.2 Nat 2 ⟨[7, 8], 1⟩ 9 (by decide) (by decide)

/-- A failed reconnection sequence consumes its five attempts with the
doubling backoff delays 2, 4, 8, 16, 32 and reports failure. -/
theorem attempt_reconnection_all_fail (env : Nat → Bool) (idx : Nat)
    (h : ∀ j, j < max_attempts → env (idx + j) = false) :
    attempt_reconnection env true idx = (false, idx + 5, [2, 4, 8, 16, 32]) := by
  have h0 := h 0 (by decide)
  have h1 := h 1 (by decide)
  have h2 := h 2 (by decide)
  have h3 := h 3 (by decide)
  have h4 := h 4 (by decide)
  simp only [Nat.add_zero] at h0
  simp only [attempt_reconnection, max_attempts, attempt_loop, if_true,
    h0, h1, h2, h3, h4]
  norm_num

/-- C7: with `stop()` never called and every `_create_capture` failing, the
acquisition loop never terminates: after any number of iterations it is
still cycling, having re-entered the full 5-attempt doubling backoff
sequence once per iteration; the loop exits only at an iteration where
`stop()` has made `is_running` false; and a successful attempt ends the
reconnection cycling with a connection. -/
theorem capture_loop_keeps_reconnecting :
    (∀ (running env : Nat → Bool),
      (∀ i, running i = true) → (∀ i, env i = false) →
      ∀ n, capture_run running env n = .looping (5 * n))
    ∧ (∀ (running env : Nat → Bool) (n k : Nat),
        capture_run running env n = .exited k → running k = false)
    ∧ (∀ (running env : Nat → Bool) (n idx : Nat),
        running n = true → env idx = true →
        capture_step running env n (.looping idx) = .connected (idx + 1))
    ∧ (∀ (env : Nat → Bool) (idx : Nat),
        (∀ j, j < max_attempts → env (idx + j) = false) →
        attempt_reconnection env true idx
          = (false, idx + 5, [2, 4, 8, 16, 32])) := by
  refine ⟨?_, ?_, ?_, attempt_reconnection_all_fail⟩
  · intro running env hrun henv n
    induction n with
    | zero => simp [capture_run]
    | succ n ih =>
        have hall : ∀ j, j < max_attempts → env (5 * n + j) = false :=
          fun j _ => henv (5 * n + j)
        simp [capture_run, ih, capture_step, hrun n,
          attempt_reconnection_all_fail env (5 * n) hall]
        ring
  · intro running env n
    induction n with
    | zero =>
        intro k h
        simp [capture_run] at h
    | succ n ih =>
        intro k h
        simp only [capture_run, capture_step] at h
        match hprev : capture_run running env n with
        | .looping idx =>
            rw [hprev] at h
            simp only at h
            by_cases hr : running n = true
            · rw [hr] at h
              simp at h
              split at h <;> simp at h
            · rw [Bool.not_eq_true] at hr
              rw [hr] at h
              simp at h
              rw [← h.symm] at hr
              exact hr
        | .connected idx =>
            rw [hprev] at h
            simp at h
        | .exited j =>
            rw [hprev] at h
            simp only at h
            exact ih k (by rw [hprev]; exact h)
  · intro running env n idx hr he
    simp [capture_step, hr, attempt_reconnection, max_attempts, attempt_loop, he]

/-- Witness for `capture_loop_keeps_reconnecting` at concrete schedules:
all-failing attempts keep the loop cycling, a stop exits it, and a
successful attempt connects. -/
theorem capture_loop_keeps_reconnecting_witness :
    capture_run (fun _ => true) (fun _ => false) 3 = .looping 15
    ∧ (fun (_ : Nat) => false) 0 = false
    ∧ capture_step (fun _ => true) (fun _ => true) 0 (.looping 0)
        = .connected 1
    ∧ attempt_reconnection (fun _ => false) true 0
        = (false, 5, [2, 4, 8, 16, 32]) :=
  ⟨capture_loop_keeps_reconnecting.1 _ _ (fun _ => rfl) (fun _ => rfl) 3,
   capture_loop_keeps_reconnecting.2.1 (fun _ => false) (fun _ => false) 1 0
     (by decide),
   capture_loop_keeps_reconnecting.2.2.1 _ _ 0 0 rfl rfl,
   capture_loop_keeps_reconnecting.2.2.2 (fun _ => false) 0
     (fun _ _ => rfl)⟩

/-- C4: the fan-out returns true iff at least one registered channel
reports success (hence false for an empty provider list and false when all
fail); every provider is invoked regardless of other channels' outcomes;
and a channel whose `send` raises is treated identically to a channel
reporting failure. -/
theorem send_notification_success_iff :
    (∀ (ps : List Provider) (pr : String),
      (send_notification ps pr).success = true
        ↔ ∃ p ∈ ps, reportsSuccess p pr = true)
    ∧ (∀ (ps : List Provider) (pr : String),
        (send_notification ps pr).providers_invoked = ps.length)
    ∧ (∀ (a b : List Provider) (pr : String),
        (send_notification (a ++ Provider.raising :: b) pr).success
          = (send_notification (a ++ always_fail_provider :: b) pr).success
        ∧ (send_notification (a ++ Provider.raising :: b) pr).success_count
          = (send_notification (a ++ always_fail_provider :: b) pr).success_count) := by
  refine ⟨?_, ?_, ?_⟩
  · intro ps pr
    match ps with
    | [] => simp [send_notification]
    | p :: rest =>
        simp only [send_notification, List.isEmpty_cons, Bool.false_eq_true,
          if_false, decide_eq_true_eq]
        exact List.countP_pos_iff
  · intro ps pr
    match ps with
    | [] => simp [send_notification]
    | p :: rest => simp [send_notification]
  · intro a b pr
    have h1 : reportsSuccess Provider.raising pr = false := rfl
    have h2 : reportsSuccess always_fail_provider pr = false := rfl
    constructor <;>
      simp [send_notification, List.countP_append, List.countP_cons, h1, h2]

/-- C10: a disabled or priority-filtered provider returns true from `send`
without attempting delivery, and a non-empty provider list in which every
provider is disabled or filtered yields overall success with zero delivery
attempts. -/
theorem disabled_or_filtered_trivially_succeeds :
    (∀ (p : Provider) (pr : String),
      disabledOrFiltered p pr = true → providerSend p pr = .ok (true, 0))
    ∧ (∀ (ps : List Provider) (pr : String), ps ≠ [] →
        (∀ p ∈ ps, disabledOrFiltered p pr = true) →
        send_notification ps pr
          = { success := true, success_count := ps.length,
              providers_invoked := ps.length, delivery_attempts := 0 }) := by
  have key : ∀ (p : Provider) (pr : String),
      disabledOrFiltered p pr = true → providerSend p pr = .ok (true, 0) := by
    intro p pr h
    cases p with
    | email cfg smtp =>
        simp only [disabledOrFiltered, Bool.or_eq_true] at h
        rcases h with h | h
        · simp [providerSend, emailProviderSend, h]
        · simp [providerSend, emailProviderSend, h]
    | webhook cfg net =>
        simp only [disabledOrFiltered, Bool.or_eq_true] at h
        rcases h with h | h
        · simp [providerSend, webhookProviderSend, h]
        · by_cases hg : (!cfg.enabled || cfg.urls.isEmpty) = true
          · simp [providerSend, webhookProviderSend, hg]
          · simp [providerSend, webhookProviderSend, hg, h]
    | telegram cfg net =>
        simp only [disabledOrFiltered, Bool.or_eq_true] at h
        rcases h with h | h
        · simp [providerSend, telegramProviderSend, h]
        · by_cases hg : (!cfg.enabled || cfg.bot_token.isEmpty
              || cfg.chat_ids.isEmpty) = true
          · simp [providerSend, telegramProviderSend, hg]
          · simp [providerSend, telegramProviderSend, hg, h]
    | raising => simp [disabledOrFiltered] at h
  refine ⟨key, ?_⟩
  intro ps pr hne hall
  have hsucc : ∀ p ∈ ps, reportsSuccess p pr = true := by
    intro p hp
    simp [reportsSuccess, key p pr (hall p hp)]
  have hcount : (ps.countP fun p => reportsSuccess p pr) = ps.length :=
    List.countP_eq_length.mpr hsucc
  have hatt : (ps.map fun p => sendAttempts p pr).sum = 0 := by
    rw [List.sum_eq_zero]
    intro x hx
    rcases List.mem_map.mp hx with ⟨p, hp, hpx⟩
    have : sendAttempts p pr = 0 := by
      simp [sendAttempts, key p pr (hall p hp)]
    omega
  have hne' : ps.isEmpty = false := by
    cases ps with
    | nil => exact absurd rfl hne
    | cons p rest => rfl
  simp [send_notification, hne', hcount, hatt]
  cases ps with
  | nil => exact absurd rfl hne
  | cons p rest => simp

/-- Witness for `disabled_or_filtered_trivially_succeeds`: a disabled email
provider plus a priority-filtered webhook provider yield overall success
with zero delivery attempts. -/
theorem disabled_or_filtered_trivially_succeeds_witness :
    send_notification
        [Provider.email { enabled := false, priority_filter := none }
           SmtpOutcome.delivered,
         Provider.webhook { enabled := true,
                            priority_filter := some ["high"],
                            urls := ["http://example.com/hook"] }
           (fun _ => false)]
        "low"
      = { success := true, success_count := 2, providers_invoked := 2,
          delivery_attempts := 0 } :=
  disabled_or_filtered_trivially_succeeds.2 _ "low"
    (by simp) (by decide)

/-- Counterexample to C8 as stated: a region with `width = 0` passes
`validate_led_region_config` and is registered by the loading loop, and a
region with a negative `x` — though the validator would reject it — is
registered anyway because `load_configuration` never calls the validator. -/
theorem zero_width_region_accepted_and_registered :
    validate_led_region_config
        { name := some "led", x := some 10, y := some 10, width := some 0,
          height := some 5, machine_id := some "m1" } = .ok true
    ∧ load_led_regions
        [{ name := some "led", x := some 10, y := some 10, width := some 0,
           height := some 5, machine_id := some "m1" }]
        = .ok [{ name := "led", x := 10, y := 10, width := 0, height := 5,
                 machine_id := "m1" }]
    ∧ validate_led_region_config
        { name := some "led2", x := some (-3), y := some 10, width := some 4,
          height := some 5, machine_id := some "m2" }
        = .error "Invalid x value in LED region config"
    ∧ load_led_regions
        [{ name := some "led2", x := some (-3), y := some 10, width := some 4,
           height := some 5, machine_id := some "m2" }]
        = .ok [{ name := "led2", x := -3, y := 10, width := 4, height := 5,
                 machine_id := "m2" }] :=
  ⟨rfl, rfl, rfl, rfl⟩

/-- C8 as amended: `validate_led_region_config` accepts a region config iff
all six fields are present and x, y, width, height are all non-negative —
so `width = 0` is accepted while negative values draw a descriptive
error — and the loading loop registers every config whose fields are all
present, without invoking the validator. -/
theorem validate_led_region_config_spec :
    (∀ cfg : RegionConfigRaw,
      validate_led_region_config cfg = .ok true
        ↔ (allFieldsPresent cfg = true ∧ 0 ≤ cfg.x.getD 0 ∧ 0 ≤ cfg.y.getD 0
            ∧ 0 ≤ cfg.width.getD 0 ∧ 0 ≤ cfg.height.getD 0))
    ∧ (∀ (cfgs : List RegionConfigRaw) (regions : List LEDRegion),
        cfgs.mapM buildRegion = some regions →
        load_led_regions cfgs = .ok regions) := by
  constructor
  · intro cfg
    obtain ⟨n, x, y, w, h, m⟩ := cfg
    dsimp only
    constructor
    · intro hok
      simp only [validate_led_region_config] at hok
      split at hok
      · exact absurd hok (by simp)
      · split at hok
        · exact absurd hok (by simp)
        · split at hok
          · exact absurd hok (by simp)
          · split at hok
            · exact absurd hok (by simp)
            · split at hok
              · exact absurd hok (by simp)
              · split at hok
                · exact absurd hok (by simp)
                · split at hok
                  · exact absurd hok (by simp)
                  · split at hok
                    · exact absurd hok (by simp)
                    · split at hok
                      · exact absurd hok (by simp)
                      · split at hok
                        · exact absurd hok (by simp)
                        · rename_i h1 h2 h3 h4 h5 h6 h7 h8 h9 h10
                          refine ⟨?_, by omega, by omega, by omega, by omega⟩
                          simp only [allFieldsPresent, Bool.and_eq_true]
                          simp only [Option.isNone_iff_eq_none] at h1 h2 h3 h4 h5 h6
                          refine ⟨⟨⟨⟨⟨?_, ?_⟩, ?_⟩, ?_⟩, ?_⟩, ?_⟩ <;>
                            simp [Option.isSome_iff_ne_none] <;> assumption
    · rintro ⟨hp, hx, hy, hw, hh⟩
      simp only [allFieldsPresent, Bool.and_eq_true,
        Option.isSome_iff_ne_none] at hp
      obtain ⟨⟨⟨⟨⟨hn, hxs⟩, hys⟩, hws⟩, hhs⟩, hms⟩ := hp
      simp only [validate_led_region_config, Option.isNone_iff_eq_none]
      rw [if_neg hn, if_neg hxs, if_neg hys, if_neg hws, if_neg hhs,
        if_neg hms, if_neg (by omega), if_neg (by omega), if_neg (by omega),
        if_neg (by omega)]
  · intro cfgs regions hmap
    unfold load_led_regions
    rw [hmap]

/-- Witness for `validate_led_region_config_spec` at a concrete config. -/
theorem validate_led_region_config_spec_witness :
    validate_led_region_config
        { name := some "led", x := some 0, y := some 2, width := some 3,
          height := some 4, machine_id := some "m" } = .ok true
    ∧ load_led_regions
        [{ name := some "led", x := some 0, y := some 2, width := some 3,
           height := some 4, machine_id := some "m" }]
        = .ok [{ name := "led", x := 0, y := 2, width := 3, height := 4,
                 machine_id := "m" }] :=
  ⟨(validate_led_region_config_spec.1 _).mpr (by decide),
   validate_led_region_config_spec.2 _ _ (by decide)⟩

/-- Counterexample to C1 as stated: `dimRedRoi` is non-empty, its mean
brightness 126/5 = 25.2 is below 30, yet `detect_led_color` classifies it
RED with confidence 1 — because the detector's threshold is 25, not the
30 the claim names as the default. -/
theorem dim_red_crop_below_30_classified_red :
    matSize dimRedRoi ≠ 0
    ∧ meanBrightness dimRedRoi = 126 / 5
    ∧ meanBrightness dimRedRoi < 30
    ∧ detect_led_color dimRedRoi
        = (LEDStatus.red, 1, 126 / 5) := by
  have hsum : (dimRedRoi.map fun row => (row.map HSVPixel.val).sum).sum = 630 :=
    by decide
  have hsz : matSize dimRedRoi = 25 := by decide
  have hmean : meanBrightness dimRedRoi = 126 / 5 := by
    rw [meanBrightness, hsum, hsz]
    norm_num
  refine ⟨by decide, hmean, by rw [hmean]; norm_num, ?_⟩
  have hg : countNonZero (morphCleanup (inRange dimRedRoi color_range_green))
      = 0 := by decide
  have hy : countNonZero (morphCleanup (inRange dimRedRoi color_range_yellow))
      = 0 := by decide
  have hr : countNonZero (morphCleanup
      (bitwise_or (inRange dimRedRoi color_range_red_1)
        (inRange dimRedRoi red_range_2))) = 25 := by decide
  have hd : matRows dimRedRoi * matCols dimRedRoi = 25 := by decide
  unfold detect_led_color
  rw [hmean]
  simp only [hg, hy, hr, hd, brightness_threshold]
  norm_num

/-- C1 as amended: for every non-empty crop whose mean brightness is below
the configured OFF threshold — which the detector sets to 25, not 30 —
`detect_led_color` returns OFF with confidence 1.0, regardless of the
colour content of the crop. -/
theorem dark_crop_classified_off :
    ∀ roi_hsv : Mat HSVPixel, matSize roi_hsv ≠ 0 →
      meanBrightness roi_hsv < brightness_threshold →
      detect_led_color roi_hsv = (LEDStatus.off, 1, meanBrightness roi_hsv) := by
  intro roi _ hb
  unfold detect_led_color
  simp [hb]

/-- Witness for `dark_crop_classified_off` at a single black pixel. -/
theorem dark_crop_classified_off_witness :
    matSize [[(⟨0, 0, 0⟩ : HSVPixel)]] ≠ 0
    ∧ detect_led_color [[(⟨0, 0, 0⟩ : HSVPixel)]]
        = (LEDStatus.off, 1, meanBrightness [[(⟨0, 0, 0⟩ : HSVPixel)]]) :=
  ⟨by decide, dark_crop_classified_off _ (by decide)
    (by norm_num [meanBrightness, matSize, brightness_threshold])⟩

/-- C3: an alternating RED, OFF, ..., sequence of length `history_length`
fed from an empty history makes the classification step report
FLASHING_RED (RED being the base colour); and whenever a region's stored
window is shorter than `history_length`, `detect_flashing` returns the raw
classified colour unchanged. -/
theorem alternating_window_reports_flashing_red :
    (classifySeq [] "led" (altRedOff history_length)).1 = LEDStatus.flashing_red
    ∧ ∀ (hist : HistMap) (name : String) (current : LEDStatus),
        ((alistLookup hist name).getD []).length < history_length →
        detect_flashing hist name current = current := by
  refine ⟨by decide, ?_⟩
  intro hist name current h
  unfold detect_flashing
  cases hl : alistLookup hist name with
  | none => rfl
  | some l =>
      rw [hl] at h
      simp only [Option.getD_some] at h
      simp [h]

/-- Witness for `alternating_window_reports_flashing_red` on a one-entry
window. -/
theorem alternating_window_reports_flashing_red_witness :
    detect_flashing [("led", [LEDStatus.red])] "led" LEDStatus.green
      = LEDStatus.green :=
  alternating_window_reports_flashing_red.2 _ _ _ (by decide)

/-- C6: whenever the cropped ROI is empty, `detect_led_in_region` logs the
empty-ROI warning and returns OFF with confidence 0 and brightness 0; the
embedded function is total, so no geometry raises. -/
theorem empty_crop_returns_off_conf_zero :
    ∀ (frame : Mat BGRPixel) (region : LEDRegion) (hist : HistMap),
      matSize (cropRegion frame region) = 0 →
      detect_led_in_region frame region hist
        = { detection := { region := region, status := LEDStatus.off,
                           confidence := 0, brightness := 0 },
            status_history := hist, warned_empty := true } := by
  intro frame region hist he
  unfold detect_led_in_region
  simp [he]

/-- Witness for `empty_crop_returns_off_conf_zero`: a region to the right
of a 2×2 frame. -/
theorem empty_crop_returns_off_conf_zero_witness :
    matSize (cropRegion [[⟨0, 0, 0⟩, ⟨1, 1, 1⟩], [⟨2, 2, 2⟩, ⟨3, 3, 3⟩]]
        { name := "r", x := 5, y := 0, width := 3, height := 3,
          machine_id := "m" }) = 0
    ∧ detect_led_in_region [[⟨0, 0, 0⟩, ⟨1, 1, 1⟩], [⟨2, 2, 2⟩, ⟨3, 3, 3⟩]]
        { name := "r", x := 5, y := 0, width := 3, height := 3,
          machine_id := "m" } [("q", [LEDStatus.red])]
        = { detection := { region := { name := "r", x := 5, y := 0, width := 3,
                                       height := 3, machine_id := "m" },
                           status := LEDStatus.off, confidence := 0,
                           brightness := 0 },
            status_history := [("q", [LEDStatus.red])], warned_empty := true } :=
  ⟨by decide, empty_crop_returns_off_conf_zero _ _ _ (by decide)⟩

/-- C9: an empty crop leaves the whole `status_history` table untouched —
the early OFF return of `detect_led_in_region` precedes the
`update_status_history` push. -/
theorem empty_crop_keeps_history :
    ∀ (frame : Mat BGRPixel) (region : LEDRegion) (hist : HistMap),
      matSize (cropRegion frame region) = 0 →
      (detect_led_in_region frame region hist).status_history = hist := by
  intro frame region hist he
  unfold detect_led_in_region
  simp [he]

/-- Witness for `empty_crop_keeps_history`: a region below a 1×1 frame and
a two-region history table. -/
theorem empty_crop_keeps_history_witness :
    (detect_led_in_region [[⟨9, 9, 9⟩]]
        { name := "s", x := 0, y := 4, width := 2, height := 2,
          machine_id := "m" }
        [("s", [LEDStatus.green]), ("t", [LEDStatus.off])]).status_history
      = [("s", [LEDStatus.green]), ("t", [LEDStatus.off])] :=
  empty_crop_keeps_history _ _ _ (by decide)

end Shima
